import Mathlib

/-!
# Verification of the votekick poll engine

Shallow embedding of `src/commands/moderation/votekick.ts`: the quorum
decision, the timeout race, and the whole `execute` control flow, modelled
as pure functions over an explicit environment of collaborator results.
-/

set_option maxHeartbeats 1000000

namespace Votekick

/-- `REQUIRED_VOTES_PERCENTAGE = 0.5`; the vote window `VOTE_DURATION = 60000` ms. -/
def VOTE_DURATION : Nat := 60000

/-- `config.features.experiments.moderation` and `config.security.blockedUsers`,
the two fields of the server config that the command reads. -/
structure ServerConfig where
  moderation : Bool
  blockedUsers : List String
deriving DecidableEq, Repr

/-- `member.user`: `username` may be absent (optional chaining in the source),
`bot` marks an automated account. -/
structure User where
  username : Option String
  bot : Bool
deriving DecidableEq, Repr

/-- A roster member: `member._id.user` and the optional attached user object. -/
structure Member where
  idUser : String
  user : Option User
deriving DecidableEq, Repr

/-- JS `String.prototype.trim()`: drop whitespace from both ends. -/
def jsTrim (s : String) : String :=
  ⟨((s.data.dropWhile Char.isWhitespace).reverse.dropWhile Char.isWhitespace).reverse⟩

/-- JS `String.prototype.toLowerCase()`, character by character. -/
def jsToLower (s : String) : String := ⟨s.data.map Char.toLower⟩

/-- The `find` predicate of target resolution (votekick.ts lines 59-66):
exact id match, else case-insensitive match on the trimmed username; a
username that trims to the empty string is falsy in JS, so it never matches. -/
def matchesTarget (rawSearchTerm : String) (member : Member) : Bool :=
  let searchTerm := jsTrim rawSearchTerm
  let username : Option String := (member.user.bind (·.username)).map jsTrim
  member.idUser == searchTerm ||
    (match username with
     | some u => u ≠ "" && jsToLower u == jsToLower searchTerm
     | none => false)

/-- `Math.ceil(memberCount * REQUIRED_VOTES_PERCENTAGE)` with the percentage
fixed at 0.5: the ceiling of half the member count (votekick.ts line 145). -/
def requiredVotes (memberCount : Nat) : Nat := (memberCount + 1) / 2

/-- `yesVotes > noVotes && yesVotes >= requiredVotes` (votekick.ts line 146). -/
def votekickPasses (yesVotes noVotes memberCount : Nat) : Bool :=
  decide (yesVotes > noVotes) && decide (yesVotes ≥ requiredVotes memberCount)

/-- `requiredVotes` is exactly the rational ceiling of `memberCount * 0.5`. -/
lemma requiredVotes_eq_ceil (n : Nat) :
    (requiredVotes n : ℤ) = ⌈(n : ℚ) * (1 / 2 : ℚ)⌉ := by
  unfold requiredVotes
  have h1 : n ≤ 2 * ((n + 1) / 2) := by omega
  have h2 : 2 * ((n + 1) / 2) ≤ n + 1 := by omega
  have h1q : (n : ℚ) ≤ 2 * (((n + 1) / 2 : ℕ) : ℚ) := by exact_mod_cast h1
  have h2q : 2 * (((n + 1) / 2 : ℕ) : ℚ) ≤ (n : ℚ) + 1 := by exact_mod_cast h2
  rw [eq_comm, Int.ceil_eq_iff]
  constructor
  · rw [Int.cast_natCast]
    linarith
  · rw [Int.cast_natCast]
    linarith

/-! ## Timeout race (votekick.ts lines 125-129) -/

/-- How a settled timer settles its promise: the primary timer resolves,
the safety timer rejects with "Vote timed out". -/
inductive TimerOutcome where
  | resolved
  | rejected (msg : String)
deriving DecidableEq, Repr

/-- A `setTimeout` timer: a delay in milliseconds and how it settles. -/
structure Timer where
  delay : Nat
  outcome : TimerOutcome
deriving DecidableEq, Repr

/-- `Promise.race` of two timers: the timer with the earlier deadline settles
the race; on equal deadlines the first-registered timer fires first. -/
def race (t1 t2 : Timer) : TimerOutcome :=
  if t1.delay ≤ t2.delay then t1.outcome else t2.outcome

/-- The vote-window wait: a primary timer resolving after `duration` raced
against a safety timer rejecting after `duration + 1000`. -/
def timeoutRace (duration : Nat) : TimerOutcome :=
  race ⟨duration, .resolved⟩ ⟨duration + 1000, .rejected "Vote timed out"⟩

/-! ## The command flow -/

/-- The URI-encoded UTF-8 of the two vote markers: U+2705 (yes) and
U+274C (no), as produced by `encodeURIComponent`. -/
def yesMarker : String := "%E2%9C%85"

/-- See `yesMarker`. -/
def noMarker : String := "%E2%9D%8C"

/-- `reaction?.size || 0` (votekick.ts lines 139-140): an absent reaction set
counts as zero votes; JS `||` also maps an explicit size of `0` to `0`. -/
def jsOrZero (size : Option Nat) : Nat :=
  match size with
  | none => 0
  | some n => if n == 0 then 0 else n

/-- Target resolution (votekick.ts lines 56-69): the roster fetch runs inside
its own `try`; an error is logged and swallowed, leaving the target undefined,
exactly as when the optional chain yields no roster or no member matches. -/
def resolveTarget (fetchResult : Except String (Option (List Member)))
    (searchTerm : String) : Option Member :=
  match fetchResult with
  | .error _ => none
  | .ok none => none
  | .ok (some members) => members.find? (matchesTarget searchTerm)

/-- One diagnostic log entry: the fixed message prefix passed to
`mainLogger.error`, paired with the raw cause. -/
abbrev LogEntry := String × String

/-- The terminal user-facing reply, one constructor per `msg.reply` site:
"Feature Disabled", "Invalid Usage", "Access Denied", "User not found...",
"Cannot votekick a bot", "Failed to start vote due to reaction error",
"Votekick Successful" (with the final tally), "Votekick passed but failed to
kick user", "Votekick Failed" (with tally and required votes), and the
top-level catch's generic error carrying the raw cause. -/
inductive Reply where
  | featureDisabled
  | invalidUsage
  | accessDenied
  | userNotFound
  | cannotVotekickBot
  | reactionError
  | votekickSuccessful (yes no : Nat)
  | votekickPassedKickFailed
  | votekickFailed (yes no required : Nat)
  | genericError (cause : String)
deriving DecidableEq, Repr

deriving instance DecidableEq for Except

/-- Results of the external collaborators consumed by one invocation, in
program order: the config fetch at line 19 (outside the `try`), the config
re-fetch at line 42, `msg.author?._id`, the roster fetch for target
resolution (line 58), posting the announcement (line 93; `false` models a
reply that came back undefined), attaching the two reactions as a joined
pair (lines 114-117), re-fetching the announcement with its reaction sizes
(line 132), the roster re-fetch at tally time (line 143), and the kick
(line 150). An `Except.error` is a rejected promise. -/
structure Env where
  configFetch : Except String ServerConfig
  configFetch2 : Except String ServerConfig
  authorId : Option String
  fetchMembers : Except String (Option (List Member))
  voteMessage : Except String Bool
  react : Except String Unit
  fetchMessage : Except String (Option (List (String × Nat)))
  tallyFetchMembers : Except String (Option (List Member))
  kick : Except String Unit
deriving Repr

/-- Outcome of the `try` block (lines 40-184): the reply (or the fault that
escapes to the top-level catch), how many times `targetMember.kick()` was
invoked, the tally once computed (lines 139-140), the value of
`votekickPasses` once evaluated (line 146), and the diagnostic log. -/
structure TryResult where
  out : Except String Reply
  kickCalls : Nat
  tallied : Option (Nat × Nat)
  decided : Option Bool
  log : List LogEntry
deriving DecidableEq, Repr

/-- Result of the whole `execute`: same fields; `reply = .error e` is a fault
that escapes `execute` itself uncaught. -/
structure ExecResult where
  reply : Except String Reply
  kickCalls : Nat
  tallied : Option (Nat × Nat)
  decided : Option Bool
  log : List LogEntry
deriving DecidableEq, Repr

/-- The `try` block, lines 40-184 of votekick.ts, stage by stage. -/
def tryBody (env : Env) (argList : List String) : TryResult :=
  match env.configFetch2 with
  | .error e => ⟨.error e, 0, none, none, []⟩
  | .ok serverConfig =>
    if serverConfig.blockedUsers.contains (env.authorId.getD "") then
      ⟨.ok .accessDenied, 0, none, none, []⟩
    else
      let fetchLog : List LogEntry :=
        match env.fetchMembers with
        | .error e => [("Error fetching members:", e)]
        | .ok _ => []
      match resolveTarget env.fetchMembers (argList.headD "") with
      | none => ⟨.ok .userNotFound, 0, none, none, fetchLog⟩
      | some targetMember =>
        if (targetMember.user.map (·.bot)).getD false then
          ⟨.ok .cannotVotekickBot, 0, none, none, fetchLog⟩
        else
          match env.voteMessage with
          | .error e => ⟨.error e, 0, none, none, fetchLog⟩
          | .ok false => ⟨.error "Failed to create vote message", 0, none, none, fetchLog⟩
          | .ok true =>
            match env.react with
            | .error e =>
              ⟨.ok .reactionError, 0, none, none,
                fetchLog ++ [("Failed to add vote reactions:", e)]⟩
            | .ok _ =>
              match timeoutRace VOTE_DURATION with
              | .rejected e => ⟨.error e, 0, none, none, fetchLog⟩
              | .resolved =>
                match env.fetchMessage with
                | .error e => ⟨.error e, 0, none, none, fetchLog⟩
                | .ok none => ⟨.error "Could not fetch vote message", 0, none, none, fetchLog⟩
                | .ok (some reactions) =>
                  let yesVotes := jsOrZero (reactions.lookup yesMarker)
                  let noVotes := jsOrZero (reactions.lookup noMarker)
                  match env.tallyFetchMembers with
                  | .error e => ⟨.error e, 0, some (yesVotes, noVotes), none, fetchLog⟩
                  | .ok rosterOpt =>
                    match rosterOpt.map (·.length) with
                    | none =>
                      ⟨.error "Failed to fetch member count", 0,
                        some (yesVotes, noVotes), none, fetchLog⟩
                    | some memberCount =>
                      if memberCount == 0 then
                        ⟨.error "Failed to fetch member count", 0,
                          some (yesVotes, noVotes), none, fetchLog⟩
                      else
                        if votekickPasses yesVotes noVotes memberCount then
                          match env.kick with
                          | .ok _ =>
                            ⟨.ok (.votekickSuccessful yesVotes noVotes), 1,
                              some (yesVotes, noVotes), some true, fetchLog⟩
                          | .error e =>
                            ⟨.ok .votekickPassedKickFailed, 1,
                              some (yesVotes, noVotes), some true,
                              fetchLog ++ [("Failed to kick user after successful votekick:", e)]⟩
                        else
                          ⟨.ok (.votekickFailed yesVotes noVotes (requiredVotes memberCount)), 0,
                            some (yesVotes, noVotes), some false, fetchLog⟩

/-- The whole `execute` (lines 14-195): the moderation-enabled check and the
argument-count check run before the `try`; everything else is `tryBody`,
whose faults the catch at line 185 turns into the generic error reply. -/
def executeModel (env : Env) (args : Option (List String)) : ExecResult :=
  match env.configFetch with
  | .error e => ⟨.error e, 0, none, none, []⟩
  | .ok config =>
    if !config.moderation then
      ⟨.ok .featureDisabled, 0, none, none, []⟩
    else
      match args with
      | none => ⟨.ok .invalidUsage, 0, none, none, []⟩
      | some argList =>
        if argList.length < 2 then
          ⟨.ok .invalidUsage, 0, none, none, []⟩
        else
          let r := tryBody env argList
          match r.out with
          | .error e =>
            ⟨.ok (.genericError e), r.kickCalls, r.tallied, r.decided,
              r.log ++ [("Error in votekick command:", e)]⟩
          | .ok reply => ⟨.ok reply, r.kickCalls, r.tallied, r.decided, r.log⟩

/-! ## Concrete environments used to evaluate the model -/

/-- A roster member whose username is "alice". -/
def alice : Member := ⟨"alice_id", some ⟨some "alice", false⟩⟩

/-- A 12-member roster containing alice. -/
def roster12 : List Member := alice :: List.replicate 11 ⟨"f", none⟩

/-- The all-collaborators-succeed environment of spec scenario A: 12-member
roster, 7 affirmative and 2 negative reactions at tally time. -/
def envA : Env :=
  { configFetch := .ok ⟨true, []⟩
    configFetch2 := .ok ⟨true, []⟩
    authorId := some "bob"
    fetchMembers := .ok (some roster12)
    voteMessage := .ok true
    react := .ok ()
    fetchMessage := .ok (some [(yesMarker, 7), (noMarker, 2)])
    tallyFetchMembers := .ok (some roster12)
    kick := .ok () }

/-- The argument vector used with the concrete environments. -/
def argsA : Option (List String) := some ["alice", "spam"]

/-- Scenario A end to end: the votekick passes 7 to 2, the kick runs once. -/
lemma executeModel_envA :
    executeModel envA argsA =
      ⟨.ok (.votekickSuccessful 7 2), 1, some (7, 2), some true, []⟩ := by rfl

/-! ## Claim theorems -/

/-- C1: for every yes-count, no-count and roster size, the quorum decision is
Passed if and only if `yes > no` and `yes ≥ ceil(rosterSize * 0.5)`, and
otherwise Failed; in particular a tie always yields Failed. -/
theorem quorum_decision_iff (yes no rosterSize : Nat) :
    (votekickPasses yes no rosterSize = true ↔
      yes > no ∧ (yes : ℤ) ≥ ⌈(rosterSize : ℚ) * (1 / 2 : ℚ)⌉) ∧
    (yes = no → votekickPasses yes no rosterSize = false) := by
  constructor
  · unfold votekickPasses
    rw [Bool.and_eq_true, decide_eq_true_iff, decide_eq_true_iff]
    constructor
    · rintro ⟨h1, h2⟩
      refine ⟨h1, ?_⟩
      rw [← requiredVotes_eq_ceil]
      exact_mod_cast h2
    · rintro ⟨h1, h2⟩
      refine ⟨h1, ?_⟩
      rw [← requiredVotes_eq_ceil] at h2
      exact_mod_cast h2
  · intro h
    subst h
    unfold votekickPasses
    simp

/-- Witness for C1: the tie 5 vs 5 on a 10-member roster fails. -/
theorem quorum_decision_iff_witness : votekickPasses 5 5 10 = false :=
  (quorum_decision_iff 5 5 10).2 rfl

/-- C8: the vote wait races a primary timer resolving after `duration`
(60000 ms) against a safety timer rejecting after `duration + 1000` ms; the
primary deadline is strictly earlier, so the race always resolves and the
safety-failure path is unreachable. -/
theorem timeout_race_primary_wins (duration : Nat) :
    duration < duration + 1000 ∧
    timeoutRace duration = TimerOutcome.resolved ∧
    timeoutRace VOTE_DURATION = TimerOutcome.resolved ∧
    VOTE_DURATION = 60000 := by
  refine ⟨by omega, ?_, by rfl, by rfl⟩
  simp [timeoutRace, race]

/-- With an empty or absent roster at tally time, the `try` block throws
"Failed to fetch member count" before evaluating the quorum decision. -/
lemma tryBody_tally_empty (env : Env) (argList : List String)
    (h : env.tallyFetchMembers = .ok none ∨ env.tallyFetchMembers = .ok (some [])) :
    (tryBody env argList).decided = none ∧ (tryBody env argList).kickCalls = 0 := by
  unfold tryBody
  rcases h with h | h <;> rw [h] <;> (repeat' split) <;>
    first
      | exact ⟨rfl, rfl⟩
      | simp_all

/-- Bridge between the whole command and its `try` block: either the command
stops in the pre-`try` stages (config rejection escaping uncaught, feature
disabled, or invalid usage — with no kick, no tally, no decision, no log), or
the kick count, tally and decision are exactly those of `tryBody`, a fault of
`tryBody` is rendered as the generic error and logged once, and an ordinary
`tryBody` reply passes through unchanged. -/
lemma executeModel_bridge (env : Env) (args : Option (List String)) :
    ((executeModel env args).decided = none ∧ (executeModel env args).kickCalls = 0 ∧
      (executeModel env args).tallied = none ∧ (executeModel env args).log = [] ∧
      ((∃ e, env.configFetch = .error e ∧ (executeModel env args).reply = .error e) ∨
        (executeModel env args).reply = .ok .featureDisabled ∨
        (executeModel env args).reply = .ok .invalidUsage)) ∨
    (∃ argList config, args = some argList ∧ ¬ argList.length < 2 ∧
      env.configFetch = .ok config ∧ config.moderation = true ∧
      (executeModel env args).decided = (tryBody env argList).decided ∧
      (executeModel env args).kickCalls = (tryBody env argList).kickCalls ∧
      (executeModel env args).tallied = (tryBody env argList).tallied ∧
      ((∃ e, (tryBody env argList).out = .error e ∧
          (executeModel env args).reply = .ok (.genericError e) ∧
          (executeModel env args).log =
            (tryBody env argList).log ++ [("Error in votekick command:", e)]) ∨
        (∃ r, (tryBody env argList).out = .ok r ∧
          (executeModel env args).reply = .ok r ∧
          (executeModel env args).log = (tryBody env argList).log))) := by
  unfold executeModel
  split
  · rename_i e heq
    exact Or.inl ⟨rfl, rfl, rfl, rfl, Or.inl ⟨e, heq, rfl⟩⟩
  · rename_i config heq
    split
    · exact Or.inl ⟨rfl, rfl, rfl, rfl, Or.inr (Or.inl rfl)⟩
    · rename_i hmod
      split
      · exact Or.inl ⟨rfl, rfl, rfl, rfl, Or.inr (Or.inr rfl)⟩
      · rename_i argList
        split
        · exact Or.inl ⟨rfl, rfl, rfl, rfl, Or.inr (Or.inr rfl)⟩
        · rename_i hlen
          have hmod2 : config.moderation = true := by simpa using hmod
          dsimp only
          split
          · rename_i e heq2
            exact Or.inr ⟨argList, config, rfl, hlen, heq, hmod2, rfl, rfl, rfl,
              Or.inl ⟨e, heq2, rfl, rfl⟩⟩
          · rename_i r heq2
            exact Or.inr ⟨argList, config, rfl, hlen, heq, hmod2, rfl, rfl, rfl,
              Or.inr ⟨r, heq2, rfl, rfl⟩⟩

/-- Lift of `tryBody_tally_empty` to the whole command. -/
lemma executeModel_tally_empty (env : Env) (args : Option (List String))
    (h : env.tallyFetchMembers = .ok none ∨ env.tallyFetchMembers = .ok (some [])) :
    (executeModel env args).decided = none ∧ (executeModel env args).kickCalls = 0 := by
  rcases executeModel_bridge env args with ⟨h1, h2, -⟩ |
    ⟨argList, config, -, -, -, -, h1, h2, -⟩
  · exact ⟨h1, h2⟩
  · obtain ⟨g1, g2⟩ := tryBody_tally_empty env argList h
    rw [h1, h2]
    exact ⟨g1, g2⟩

/-- An absent roster and an empty roster at tally time take the identical
error path through the `try` block. -/
lemma tryBody_tally_none_eq_empty (env : Env) (argList : List String) :
    tryBody { env with tallyFetchMembers := .ok none } argList =
      tryBody { env with tallyFetchMembers := .ok (some []) } argList := by
  unfold tryBody
  (repeat' split) <;> first | rfl | simp_all

/-- An absent roster and an empty roster at tally time give the identical
command result. -/
lemma executeModel_tally_none_eq_empty (env : Env) (args : Option (List String)) :
    executeModel { env with tallyFetchMembers := .ok none } args =
      executeModel { env with tallyFetchMembers := .ok (some []) } args := by
  unfold executeModel
  have h := tryBody_tally_none_eq_empty env
  (repeat' split) <;> simp_all

/-- C10: whenever the member-count fetch at tally time yields no value or the
value 0, the flow raises before the quorum decision is evaluated and the
removal action is never invoked; a zero-size roster takes the same error
path as an unavailable roster. -/
theorem zero_or_missing_roster_same_error_path :
    ∀ env args,
      (env.tallyFetchMembers = .ok none ∨ env.tallyFetchMembers = .ok (some [])) →
      (executeModel env args).decided = none ∧
      (executeModel env args).kickCalls = 0 ∧
      executeModel { env with tallyFetchMembers := .ok none } args =
        executeModel { env with tallyFetchMembers := .ok (some []) } args := by
  intro env args h
  obtain ⟨h1, h2⟩ := executeModel_tally_empty env args h
  exact ⟨h1, h2, executeModel_tally_none_eq_empty env args⟩

/-- Witness for C10 at a concrete environment with an absent roster. -/
theorem zero_or_missing_roster_same_error_path_witness :
    (executeModel { envA with tallyFetchMembers := .ok none } argsA).decided = none ∧
    (executeModel { envA with tallyFetchMembers := .ok none } argsA).kickCalls = 0 ∧
    executeModel { { envA with tallyFetchMembers := .ok none } with
        tallyFetchMembers := .ok none } argsA =
      executeModel { { envA with tallyFetchMembers := .ok none } with
        tallyFetchMembers := .ok (some []) } argsA :=
  zero_or_missing_roster_same_error_path
    { envA with tallyFetchMembers := .ok none } argsA (Or.inl rfl)

/-- The environment of C2's scenario: a single affirmative reaction and an
empty roster sampled at tally time. -/
def envC2 : Env :=
  { envA with
      fetchMessage := .ok (some [(yesMarker, 1)])
      tallyFetchMembers := .ok (some []) }

/-- C2 counterexample: with 1 yes vote, 0 no votes and a roster of size 0 at
tally time, the code does not produce the Passed outcome: the falsy check
`if (!memberCount)` treats the 0 count as a fetch failure and throws, and the
top-level catch reports the generic error instead; the quorum decision is
never evaluated. -/
theorem zero_roster_counterexample :
    (executeModel envC2 argsA).reply =
        .ok (.genericError "Failed to fetch member count") ∧
    (executeModel envC2 argsA).reply ≠ .ok (.votekickSuccessful 1 0) ∧
    (executeModel envC2 argsA).decided = none := by
  refine ⟨by rfl, by decide, by rfl⟩

/-- C2 amended: a roster size of 0 sampled at tally time is handled as a
fetch failure — the flow raises before the quorum decision and never kicks —
while the pure quorum function itself satisfies `quorum(1,0,0) = Passed` and
`quorum(0,0,0) = Failed`. -/
theorem zero_roster_error_path_pure_quorum :
    (votekickPasses 1 0 0 = true ∧ votekickPasses 0 0 0 = false) ∧
    (∀ env args, env.tallyFetchMembers = .ok (some []) →
      (executeModel env args).decided = none ∧
      (executeModel env args).kickCalls = 0) := by
  refine ⟨⟨by decide, by decide⟩, ?_⟩
  intro env args h
  exact executeModel_tally_empty env args (Or.inr h)

/-- Witness for the amended C2 at the concrete environment `envC2`. -/
theorem zero_roster_error_path_pure_quorum_witness :
    votekickPasses 1 0 0 = true ∧
    (executeModel envC2 argsA).decided = none ∧
    (executeModel envC2 argsA).kickCalls = 0 :=
  ⟨zero_roster_error_path_pure_quorum.1.1,
    zero_roster_error_path_pure_quorum.2 envC2 argsA rfl⟩

/-- Kick discipline of the `try` block: at most one kick, only after the
quorum decision evaluated to true; a successful kick produces the Passed
reply carrying the tally, a failed kick produces the PassedButActionFailed
reply, with no second attempt. -/
lemma tryBody_kick_facts (env : Env) (argList : List String) :
    (tryBody env argList).kickCalls ≤ 1 ∧
    ((tryBody env argList).kickCalls = 1 → (tryBody env argList).decided = some true) ∧
    ((tryBody env argList).decided ≠ some true → (tryBody env argList).kickCalls = 0) ∧
    (env.kick = .ok () → (tryBody env argList).kickCalls = 1 →
      ∃ yes no, (tryBody env argList).out = .ok (.votekickSuccessful yes no) ∧
        (tryBody env argList).tallied = some (yes, no)) ∧
    (∀ e, env.kick = .error e → (tryBody env argList).kickCalls = 1 →
      (tryBody env argList).out = .ok .votekickPassedKickFailed) := by
  unfold tryBody
  (repeat' split) <;>
    first
      | (simp_all; done)
      | (dsimp only; split <;> simp_all)

/-- C3: for every poll the removal action is invoked at most once and only
after the quorum decision is Passed; a successful removal terminates as
Passed with the tally attached, a failed removal terminates as the distinct
PassedButActionFailed state (not Failed), with no retry. -/
theorem kick_once_only_after_pass :
    ∀ env args,
      (executeModel env args).kickCalls ≤ 1 ∧
      ((executeModel env args).kickCalls = 1 →
        (executeModel env args).decided = some true) ∧
      ((executeModel env args).decided ≠ some true →
        (executeModel env args).kickCalls = 0) ∧
      (env.kick = .ok () → (executeModel env args).kickCalls = 1 →
        ∃ yes no, (executeModel env args).reply = .ok (.votekickSuccessful yes no) ∧
          (executeModel env args).tallied = some (yes, no)) ∧
      (∀ e, env.kick = .error e → (executeModel env args).kickCalls = 1 →
        (executeModel env args).reply = .ok .votekickPassedKickFailed) ∧
      (∀ yes no required,
        Reply.votekickPassedKickFailed ≠ Reply.votekickFailed yes no required) := by
  intro env args
  rcases executeModel_bridge env args with
    ⟨hd, hk, ht, -, -⟩ | ⟨argList, config, -, -, -, -, hd, hk, ht, hout⟩
  · refine ⟨by rw [hk]; decide, ?_, fun _ => hk, ?_, ?_,
      fun _ _ _ h => Reply.noConfusion h⟩
    · intro h1
      rw [hk] at h1
      exact absurd h1 (by decide)
    · intro _ h1
      rw [hk] at h1
      exact absurd h1 (by decide)
    · intro _ _ h1
      rw [hk] at h1
      exact absurd h1 (by decide)
  · obtain ⟨t1, t2, t3, t4, t5⟩ := tryBody_kick_facts env argList
    refine ⟨by rw [hk]; exact t1, ?_, ?_, ?_, ?_, fun _ _ _ h => Reply.noConfusion h⟩
    · intro h1
      rw [hk] at h1
      rw [hd]
      exact t2 h1
    · intro h1
      rw [hd] at h1
      rw [hk]
      exact t3 h1
    · intro hko h1
      rw [hk] at h1
      obtain ⟨yes, no, ho, hta⟩ := t4 hko h1
      rcases hout with ⟨e, he, -, -⟩ | ⟨r, hr, hrep, -⟩
      · rw [he] at ho
        exact absurd ho (by simp)
      · rw [hr] at ho
        refine ⟨yes, no, ?_, by rw [ht]; exact hta⟩
        rw [hrep]
        exact congrArg Except.ok (Except.ok.inj ho)
    · intro e hke h1
      rw [hk] at h1
      have ho := t5 e hke h1
      rcases hout with ⟨e2, he, -, -⟩ | ⟨r, hr, hrep, -⟩
      · rw [he] at ho
        exact absurd ho (by simp)
      · rw [hr] at ho
        rw [hrep]
        exact congrArg Except.ok (Except.ok.inj ho)

/-- Witness for C3 at the all-success environment: one kick after the
passing 7-2 vote, with the tally attached to the Passed reply. -/
theorem kick_once_only_after_pass_witness :
    (executeModel envA argsA).kickCalls ≤ 1 ∧
    (executeModel envA argsA).decided = some true ∧
    ∃ yes no, (executeModel envA argsA).reply = .ok (.votekickSuccessful yes no) ∧
      (executeModel envA argsA).tallied = some (yes, no) := by
  obtain ⟨t1, t2, -, t4, -, -⟩ := kick_once_only_after_pass envA argsA
  exact ⟨t1, t2 (by rfl), t4 (by rfl) (by rfl)⟩

/-- Stage lemma: moderation disabled short-circuits to the Feature Disabled
reply, whatever the rest of the environment holds. -/
lemma executeModel_feature_disabled (env : Env) (args : Option (List String))
    (config : ServerConfig) (hc : env.configFetch = .ok config)
    (hm : config.moderation = false) :
    (executeModel env args).reply = .ok .featureDisabled := by
  unfold executeModel
  rw [hc]
  simp [hm]

/-- Stage lemma: with moderation enabled, a missing or short argument vector
short-circuits to the Invalid Usage reply. -/
lemma executeModel_invalid_usage (env : Env) (args : Option (List String))
    (config : ServerConfig) (hc : env.configFetch = .ok config)
    (hm : config.moderation = true)
    (ha : args = none ∨ ∃ argList, args = some argList ∧ argList.length < 2) :
    (executeModel env args).reply = .ok .invalidUsage := by
  unfold executeModel
  rw [hc]
  rcases ha with ha | ⟨argList, ha, hlen⟩
  · rw [ha]
    simp [hm]
  · rw [ha]
    simp [hm, hlen]

/-- Stage lemma: once the two pre-`try` checks pass, the command's reply is
the `try` block's reply, faults being rendered as the generic error. -/
lemma executeModel_reply_of_tryBody (env : Env) (args : Option (List String))
    (argList : List String) (config : ServerConfig)
    (hc : env.configFetch = .ok config) (hm : config.moderation = true)
    (ha : args = some argList) (hlen : ¬ argList.length < 2) :
    ∀ r, (tryBody env argList).out = .ok r →
      (executeModel env args).reply = .ok r := by
  intro r hr
  unfold executeModel
  rw [hc, ha]
  dsimp only
  rw [hm]
  rw [if_neg (by decide), if_neg hlen, hr]

/-- Stage lemma: a blocked initiator short-circuits the `try` block to the
Access Denied reply, whatever the state of target resolution. -/
lemma tryBody_blocked (env : Env) (argList : List String)
    (config2 : ServerConfig) (h2 : env.configFetch2 = .ok config2)
    (hb : config2.blockedUsers.contains (env.authorId.getD "") = true) :
    (tryBody env argList).out = .ok .accessDenied := by
  unfold tryBody
  rw [h2]
  dsimp only
  rw [if_pos hb]

/-- Stage lemma: an unblocked initiator with an unresolvable target gets the
User Not Found reply. -/
lemma tryBody_not_found (env : Env) (argList : List String)
    (config2 : ServerConfig) (h2 : env.configFetch2 = .ok config2)
    (hb : config2.blockedUsers.contains (env.authorId.getD "") = false)
    (hr : resolveTarget env.fetchMembers (argList.headD "") = none) :
    (tryBody env argList).out = .ok .userNotFound := by
  unfold tryBody
  rw [h2]
  dsimp only
  rw [if_neg (by rw [hb]; exact Bool.false_ne_true), hr]

/-- Stage lemma: a resolved target that is an automated account gets the
Cannot Votekick A Bot reply. -/
lemma tryBody_bot (env : Env) (argList : List String)
    (config2 : ServerConfig) (target : Member)
    (h2 : env.configFetch2 = .ok config2)
    (hb : config2.blockedUsers.contains (env.authorId.getD "") = false)
    (hr : resolveTarget env.fetchMembers (argList.headD "") = some target)
    (hbot : (target.user.map (·.bot)).getD false = true) :
    (tryBody env argList).out = .ok .cannotVotekickBot := by
  unfold tryBody
  rw [h2]
  dsimp only
  rw [if_neg (by rw [hb]; exact Bool.false_ne_true), hr]
  dsimp only
  rw [if_pos hbot]

/-- C5: the eligibility checks run in the fixed order moderation-enabled,
argument-count, blocklist, target resolution, automated-account, with a
short-circuit on the first failure; in particular a blocked initiator is
rejected with Access Denied for every state of target resolution, including
an invalid target argument. -/
theorem eligibility_check_order :
    ∀ env args,
      (∀ config, env.configFetch = .ok config → config.moderation = false →
        (executeModel env args).reply = .ok .featureDisabled) ∧
      (∀ config, env.configFetch = .ok config → config.moderation = true →
        (args = none ∨ ∃ argList, args = some argList ∧ argList.length < 2) →
        (executeModel env args).reply = .ok .invalidUsage) ∧
      (∀ config argList config2, env.configFetch = .ok config →
        config.moderation = true → args = some argList → ¬ argList.length < 2 →
        env.configFetch2 = .ok config2 →
        config2.blockedUsers.contains (env.authorId.getD "") = true →
        (executeModel env args).reply = .ok .accessDenied) ∧
      (∀ config argList config2, env.configFetch = .ok config →
        config.moderation = true → args = some argList → ¬ argList.length < 2 →
        env.configFetch2 = .ok config2 →
        config2.blockedUsers.contains (env.authorId.getD "") = false →
        resolveTarget env.fetchMembers (argList.headD "") = none →
        (executeModel env args).reply = .ok .userNotFound) ∧
      (∀ config argList config2 target, env.configFetch = .ok config →
        config.moderation = true → args = some argList → ¬ argList.length < 2 →
        env.configFetch2 = .ok config2 →
        config2.blockedUsers.contains (env.authorId.getD "") = false →
        resolveTarget env.fetchMembers (argList.headD "") = some target →
        (target.user.map (·.bot)).getD false = true →
        (executeModel env args).reply = .ok .cannotVotekickBot) := by
  intro env args
  refine ⟨?_, ?_, ?_, ?_, ?_⟩
  · intro config hc hm
    exact executeModel_feature_disabled env args config hc hm
  · intro config hc hm ha
    exact executeModel_invalid_usage env args config hc hm ha
  · intro config argList config2 hc hm ha hlen h2 hb
    exact executeModel_reply_of_tryBody env args argList config hc hm ha hlen _
      (tryBody_blocked env argList config2 h2 hb)
  · intro config argList config2 hc hm ha hlen h2 hb hr
    exact executeModel_reply_of_tryBody env args argList config hc hm ha hlen _
      (tryBody_not_found env argList config2 h2 hb hr)
  · intro config argList config2 target hc hm ha hlen h2 hb hr hbot
    exact executeModel_reply_of_tryBody env args argList config hc hm ha hlen _
      (tryBody_bot env argList config2 target h2 hb hr hbot)

/-- An environment whose initiator "bob" is on the blocklist and whose roster
fetch for target resolution is failing: the blocklist check wins. -/
def envBlocked : Env :=
  { envA with
      configFetch2 := .ok ⟨true, ["bob"]⟩
      fetchMembers := .error "fetch failed" }

/-- Witness for C5: the blocked initiator is rejected with Access Denied
even though target resolution would also fail. -/
theorem eligibility_check_order_witness :
    (executeModel envBlocked argsA).reply = .ok .accessDenied :=
  (eligibility_check_order envBlocked argsA).2.2.1 ⟨true, []⟩ ["alice", "spam"]
    ⟨true, ["bob"]⟩ rfl rfl rfl (by decide) rfl (by decide)

/-- If attaching the vote markers fails, the `try` block computes no tally,
evaluates no quorum decision, and never kicks. -/
lemma tryBody_react_error (env : Env) (argList : List String) (e : String)
    (h : env.react = .error e) :
    (tryBody env argList).tallied = none ∧ (tryBody env argList).decided = none ∧
    (tryBody env argList).kickCalls = 0 := by
  unfold tryBody
  (repeat' split) <;>
    first
      | (exact ⟨rfl, rfl, rfl⟩)
      | simp_all

/-- If the flow reaches the reaction stage and attachment fails, the `try`
block ends with the reaction-error reply. -/
lemma tryBody_react_error_out (env : Env) (argList : List String) (e : String)
    (config2 : ServerConfig) (target : Member)
    (h2 : env.configFetch2 = .ok config2)
    (hb : config2.blockedUsers.contains (env.authorId.getD "") = false)
    (hr : resolveTarget env.fetchMembers (argList.headD "") = some target)
    (hbot : (target.user.map (·.bot)).getD false = false)
    (hv : env.voteMessage = .ok true)
    (h : env.react = .error e) :
    (tryBody env argList).out = .ok .reactionError := by
  unfold tryBody
  rw [h2]
  dsimp only
  rw [if_neg (by rw [hb]; exact Bool.false_ne_true), hr]
  dsimp only
  rw [if_neg (by rw [hbot]; exact Bool.false_ne_true), hv]
  dsimp only
  rw [h]

/-- C6: if attaching either vote marker to the announcement fails, the poll
terminates with the reaction-setup-failure reply and no later stage runs —
no tally, no quorum decision, no removal attempt. -/
theorem reaction_setup_failure_aborts :
    ∀ env args e, env.react = .error e →
      (executeModel env args).tallied = none ∧
      (executeModel env args).decided = none ∧
      (executeModel env args).kickCalls = 0 ∧
      (∀ argList config config2 target,
        env.configFetch = .ok config → config.moderation = true →
        args = some argList → ¬ argList.length < 2 →
        env.configFetch2 = .ok config2 →
        config2.blockedUsers.contains (env.authorId.getD "") = false →
        resolveTarget env.fetchMembers (argList.headD "") = some target →
        (target.user.map (·.bot)).getD false = false →
        env.voteMessage = .ok true →
        (executeModel env args).reply = .ok .reactionError) := by
  intro env args e h
  have base : (executeModel env args).tallied = none ∧
      (executeModel env args).decided = none ∧
      (executeModel env args).kickCalls = 0 := by
    rcases executeModel_bridge env args with
      ⟨hd, hk, ht, -, -⟩ | ⟨argList, config, -, -, -, -, hd, hk, ht, -⟩
    · exact ⟨ht, hd, hk⟩
    · obtain ⟨g1, g2, g3⟩ := tryBody_react_error env argList e h
      rw [ht, hd, hk]
      exact ⟨g1, g2, g3⟩
  refine ⟨base.1, base.2.1, base.2.2, ?_⟩
  intro argList config config2 target hc hm ha hlen h2 hb hr hbot hv
  exact executeModel_reply_of_tryBody env args argList config hc hm ha hlen _
    (tryBody_react_error_out env argList e config2 target h2 hb hr hbot hv h)

/-- The all-success environment with failing reaction attachment. -/
def envReact : Env := { envA with react := .error "rate limited" }

/-- Witness for C6 at `envReact`. -/
theorem reaction_setup_failure_aborts_witness :
    (executeModel envReact argsA).tallied = none ∧
    (executeModel envReact argsA).decided = none ∧
    (executeModel envReact argsA).kickCalls = 0 ∧
    (executeModel envReact argsA).reply = .ok .reactionError := by
  obtain ⟨t1, t2, t3, t4⟩ :=
    reaction_setup_failure_aborts envReact argsA "rate limited" rfl
  refine ⟨t1, t2, t3, ?_⟩
  exact t4 ["alice", "spam"] ⟨true, []⟩ ⟨true, []⟩ alice rfl rfl rfl (by decide)
    rfl (by decide) (by rfl) (by rfl) rfl

/-- A failing roster fetch during target resolution changes only the log of
the `try` block: out, kicks, tally and decision are those of an absent
roster. -/
lemma tryBody_fetch_error_eq (env : Env) (argList : List String) (e : String)
    (h : env.fetchMembers = .error e) :
    (tryBody env argList).out =
      (tryBody { env with fetchMembers := .ok none } argList).out ∧
    (tryBody env argList).kickCalls =
      (tryBody { env with fetchMembers := .ok none } argList).kickCalls ∧
    (tryBody env argList).tallied =
      (tryBody { env with fetchMembers := .ok none } argList).tallied ∧
    (tryBody env argList).decided =
      (tryBody { env with fetchMembers := .ok none } argList).decided := by
  unfold tryBody
  rw [h]
  dsimp only [resolveTarget]
  (repeat' split) <;> exact ⟨rfl, rfl, rfl, rfl⟩

/-- Lift: the command's terminal reply is unchanged when a failing roster
fetch is replaced by an absent roster. -/
lemma executeModel_fetch_error_reply (env : Env) (args : Option (List String))
    (e : String) (h : env.fetchMembers = .error e) :
    (executeModel env args).reply =
      (executeModel { env with fetchMembers := .ok none } args).reply := by
  unfold executeModel
  dsimp only
  split
  · rfl
  · split
    · rfl
    · split
      · rfl
      · rename_i argList
        split
        · rfl
        · have hout := (tryBody_fetch_error_eq env argList e h).1
          rw [hout]
          split <;> rfl

/-- With a failing roster fetch and an unblocked initiator, the `try` block's
log is exactly the swallowed-fault entry. -/
lemma tryBody_fetch_error_log (env : Env) (argList : List String) (e : String)
    (config2 : ServerConfig)
    (h2 : env.configFetch2 = .ok config2)
    (hb : config2.blockedUsers.contains (env.authorId.getD "") = false)
    (h : env.fetchMembers = .error e) :
    (tryBody env argList).log = [("Error fetching members:", e)] := by
  unfold tryBody
  rw [h2]
  dsimp only
  rw [if_neg (by rw [hb]; exact Bool.false_ne_true), h]
  rfl

/-- Stage lemma: when the `try` block returns an ordinary reply, the
command's log is the `try` block's log unchanged. -/
lemma executeModel_log_of_tryBody (env : Env) (args : Option (List String))
    (argList : List String) (config : ServerConfig)
    (hc : env.configFetch = .ok config) (hm : config.moderation = true)
    (ha : args = some argList) (hlen : ¬ argList.length < 2)
    (hok : ∃ r, (tryBody env argList).out = .ok r) :
    (executeModel env args).log = (tryBody env argList).log := by
  obtain ⟨r, hr⟩ := hok
  unfold executeModel
  rw [hc, ha]
  dsimp only
  rw [hm]
  rw [if_neg (by decide), if_neg hlen, hr]

/-- C7: an error raised by target resolution (for example a roster fetch
failure) is swallowed: resolution yields no target, the terminal reply is the
same User Not Found as when no member matches, and the fault is only logged,
never propagated as a distinct error kind. -/
theorem resolution_fault_swallowed :
    ∀ env args e, env.fetchMembers = .error e →
      (∀ searchTerm, resolveTarget env.fetchMembers searchTerm = none) ∧
      (executeModel env args).reply =
        (executeModel { env with fetchMembers := .ok none } args).reply ∧
      (∀ argList config config2,
        env.configFetch = .ok config → config.moderation = true →
        args = some argList → ¬ argList.length < 2 →
        env.configFetch2 = .ok config2 →
        config2.blockedUsers.contains (env.authorId.getD "") = false →
        (executeModel env args).reply = .ok .userNotFound ∧
        ("Error fetching members:", e) ∈ (executeModel env args).log) := by
  intro env args e h
  refine ⟨?_, executeModel_fetch_error_reply env args e h, ?_⟩
  · intro s
    rw [h]
    rfl
  · intro argList config config2 hc hm ha hlen h2 hb
    have hnf := tryBody_not_found env argList config2 h2 hb (by rw [h]; rfl)
    refine ⟨executeModel_reply_of_tryBody env args argList config hc hm ha hlen _ hnf, ?_⟩
    have hlog : (executeModel env args).log = (tryBody env argList).log :=
      executeModel_log_of_tryBody env args argList config hc hm ha hlen ⟨_, hnf⟩
    rw [hlog, tryBody_fetch_error_log env argList e config2 h2 hb h]
    exact List.mem_singleton.mpr rfl

/-- The all-success environment with a failing roster fetch at resolution. -/
def envFetchErr : Env := { envA with fetchMembers := .error "roster down" }

/-- Witness for C7 at `envFetchErr`. -/
theorem resolution_fault_swallowed_witness :
    resolveTarget envFetchErr.fetchMembers "alice" = none ∧
    (executeModel envFetchErr argsA).reply =
      (executeModel { envFetchErr with fetchMembers := .ok none } argsA).reply ∧
    (executeModel envFetchErr argsA).reply = .ok .userNotFound ∧
    ("Error fetching members:", "roster down") ∈ (executeModel envFetchErr argsA).log := by
  obtain ⟨t1, t2, t3⟩ := resolution_fault_swallowed envFetchErr argsA "roster down" rfl
  obtain ⟨t3a, t3b⟩ := t3 ["alice", "spam"] ⟨true, []⟩ ⟨true, []⟩ rfl rfl rfl
    (by decide) rfl (by decide)
  exact ⟨t1 "alice", t2, t3a, t3b⟩

/-- The `try` block's tally when the re-fetched announcement has no reaction
entries: zero votes on both sides, or that stage never reached. -/
lemma tryBody_empty_reactions (env : Env) (argList : List String)
    (h : env.fetchMessage = .ok (some [])) :
    (tryBody env argList).tallied = none ∨
      (tryBody env argList).tallied = some (0, 0) := by
  unfold tryBody
  (repeat' split) <;>
    first
      | (left; rfl)
      | (simp_all [jsOrZero]; done)
      | (right; simp_all [jsOrZero]; done)
      | (right; simp_all [jsOrZero]; split <;> rfl)

/-- C9: at tally time, a marker absent from the re-fetched announcement's
reaction set is counted as zero votes for that side and is not an error: the
`|| 0` fallback agrees with `Option.getD 0`, and with both markers absent the
poll tallies (0, 0) and proceeds. -/
theorem missing_marker_zero_votes :
    (∀ reactions : List (String × Nat), ∀ marker : String,
      reactions.lookup marker = none → jsOrZero (reactions.lookup marker) = 0) ∧
    (∀ size : Option Nat, jsOrZero size = size.getD 0) ∧
    (∀ env args, env.fetchMessage = .ok (some []) →
      (executeModel env args).tallied = none ∨
        (executeModel env args).tallied = some (0, 0)) := by
  refine ⟨?_, ?_, ?_⟩
  · intro reactions marker h
    rw [h]
    rfl
  · intro size
    cases size with
    | none => rfl
    | some n =>
      by_cases h : n = 0 <;> simp [jsOrZero, h]
  · intro env args h
    rcases executeModel_bridge env args with ⟨-, -, ht, -, -⟩ |
      ⟨argList, config, -, -, -, -, -, -, ht, -⟩
    · exact Or.inl ht
    · rw [ht]
      exact tryBody_empty_reactions env argList h

/-- The all-success environment whose re-fetched announcement carries no
reaction entries at all: both markers are missing. -/
def envNoMarkers : Env := { envA with fetchMessage := .ok (some []) }

/-- Witness for C9 at `envNoMarkers`. -/
theorem missing_marker_zero_votes_witness :
    jsOrZero (List.lookup yesMarker ([] : List (String × Nat))) = 0 ∧
    jsOrZero (some 7) = (some 7).getD 0 ∧
    ((executeModel envNoMarkers argsA).tallied = none ∨
      (executeModel envNoMarkers argsA).tallied = some (0, 0)) :=
  ⟨missing_marker_zero_votes.1 [] yesMarker rfl,
    missing_marker_zero_votes.2.1 (some 7),
    missing_marker_zero_votes.2.2 envNoMarkers argsA rfl⟩

/-- Stage lemma: a fault escaping the `try` block is caught once at top level
and rendered as the generic error with the raw cause, appended to the log. -/
lemma executeModel_generic_error (env : Env) (args : Option (List String))
    (argList : List String) (config : ServerConfig) (e : String)
    (hc : env.configFetch = .ok config) (hm : config.moderation = true)
    (ha : args = some argList) (hlen : ¬ argList.length < 2)
    (hout : (tryBody env argList).out = .error e) :
    (executeModel env args).reply = .ok (.genericError e) ∧
    (executeModel env args).log =
      (tryBody env argList).log ++ [("Error in votekick command:", e)] := by
  unfold executeModel
  rw [hc, ha]
  dsimp only
  rw [hm]
  rw [if_neg (by decide), if_neg hlen, hout]
  exact ⟨rfl, rfl⟩

/-- The all-success environment whose very first config fetch (line 19,
before the `try` block) rejects. -/
def envC4 : Env := { envA with configFetch := .error "db down" }

/-- C4 counterexample: a fault raised by the moderation-enabled check's
config fetch (line 19, outside the `try` that starts at line 40) escapes
`execute` uncaught: nothing is logged and no generic error message carrying
the cause is rendered, contrary to the claim that faults from that check are
caught once at the top level. -/
theorem uncaught_config_fault_counterexample :
    (executeModel envC4 argsA).reply = .error "db down" ∧
    (executeModel envC4 argsA).reply ≠ .ok (.genericError "db down") ∧
    (executeModel envC4 argsA).log = [] :=
  ⟨rfl, by decide, rfl⟩

/-- C4 amended: a fault escapes `execute` uncaught exactly when the initial
config fetch backing the moderation-enabled check rejects (the `try` begins
only after the moderation-enabled and argument-count checks); every fault
raised inside the `try` block is caught once at the top level, logged, and
rendered as a single generic error message that includes the raw cause. -/
theorem top_level_catch_scope :
    ∀ env args,
      (∀ e, (executeModel env args).reply = .error e ↔ env.configFetch = .error e) ∧
      (∀ argList config e, env.configFetch = .ok config → config.moderation = true →
        args = some argList → ¬ argList.length < 2 →
        (tryBody env argList).out = .error e →
        (executeModel env args).reply = .ok (.genericError e) ∧
        ("Error in votekick command:", e) ∈ (executeModel env args).log) := by
  intro env args
  constructor
  · intro e
    constructor
    · intro hrep
      rcases executeModel_bridge env args with ⟨-, -, -, -, hca⟩ |
        ⟨argList, config, -, -, -, -, -, -, -, hout⟩
      · rcases hca with ⟨e2, hc, hrep2⟩ | hrep2 | hrep2
        · rw [hrep] at hrep2
          rw [hc]
          exact congrArg Except.error (Except.error.inj hrep2).symm
        · rw [hrep] at hrep2
          exact absurd hrep2 (by simp)
        · rw [hrep] at hrep2
          exact absurd hrep2 (by simp)
      · rcases hout with ⟨e2, -, hrep2, -⟩ | ⟨r, -, hrep2, -⟩ <;>
          (rw [hrep] at hrep2; exact absurd hrep2 (by simp))
    · intro hc
      unfold executeModel
      rw [hc]
  · intro argList config e hc hm ha hlen hout
    obtain ⟨h1, h2⟩ :=
      executeModel_generic_error env args argList config e hc hm ha hlen hout
    refine ⟨h1, ?_⟩
    rw [h2]
    exact List.mem_append_right _ (List.mem_singleton.mpr rfl)

/-- The all-success environment whose announcement post comes back
undefined, raising a fault inside the `try` block. -/
def envTryFault : Env := { envA with voteMessage := .ok false }

/-- Witness for the amended C4 at `envTryFault`. -/
theorem top_level_catch_scope_witness :
    (executeModel envTryFault argsA).reply =
      .ok (.genericError "Failed to create vote message") ∧
    ("Error in votekick command:", "Failed to create vote message") ∈
      (executeModel envTryFault argsA).log :=
  (top_level_catch_scope envTryFault argsA).2 ["alice", "spam"] ⟨true, []⟩
    "Failed to create vote message" rfl rfl rfl (by decide) (by rfl)

end Votekick
